import Mathlib

/-!
Verification development for the smart-playlist-matcher mood-classifier
service (files `app/jsdbk.py`, `app/app.py`,
`app/smart_playlist_enhanced_audio.py`).

The numeric signal-processing library (librosa) and numpy are external to
the repository; their calls are embedded as fields of an explicit backend
structure, each field carrying exactly the arguments the Python code passes
(with library default arguments spelled out where the code relies on them).
Machine floats are modelled as rationals; `np.mean` and `np.std` are opaque
backend functions, since their numeric content is the library's, not the
repository's.  Fallible I/O (file open, decoding, subprocess) is embedded
with `Except` / `Option`, and the filesystem side effects of the decoder's
temporary file are recorded as an explicit event trace.
-/

/-- Python exception values that the service's control flow distinguishes
(`jsdbk.py` defines `AudioDecodeError` and `ModelLoadError`; the builtin
`FileNotFoundError` escapes from `open(MODEL_PATH)` at import time).
`audioDecodeError` carries the message and the `from e` cause. -/
inductive PyExc where
  | fileNotFound : PyExc
  | modelLoadError : String → PyExc
  | audioDecodeError : String → String → PyExc
  | httpException : Nat → String → PyExc
  | other : String → PyExc
deriving DecidableEq, Repr

/-- Discriminator used to compare the exception type raised by the code
with the type the specification names. -/
def PyExc.isModelLoadError : PyExc → Bool
  | .modelLoadError _ => true
  | _ => false

/-- Discriminator for `AudioDecodeError`. -/
def PyExc.isAudioDecodeError : PyExc → Bool
  | .audioDecodeError _ _ => true
  | _ => false

/-- The label-bearing part of the pickled artifact (`jsdbk.py` lines
24-51): the optional `"classes"` and `"moods"` dict entries, and the
classifier's optional `classes_` attribute (absent when
`getattr(classifier, "classes_", None)` yields `None`).  The Python
`[str(m) for m in MOODS]` coercion is the identity on this already
string-typed shape. -/
structure RawBundle where
  classes : Option (List String)
  moods : Option (List String)
  clf_classes : Option (List String)
deriving DecidableEq, Repr

/-- `MOODS = bundle.get("classes"); if MOODS is None: MOODS = bundle.get("moods")`
(`jsdbk.py` lines 35-37): presence of the first key, even with an empty
value, preempts the second. -/
def presentFirst (a b : Option (List String)) : Option (List String) :=
  match a with
  | some x => some x
  | none => b

/-- The hard-coded fallback label list (`jsdbk.py` line 48). -/
def default_moods : List String := ["calm", "energetic", "happy", "sad"]

/-- Module-level `MOODS` resolution (`jsdbk.py` lines 33-51), returning the
resolved list together with a flag that is `true` exactly when the
hard-coded default was used (the `logger.warning` branch). -/
def resolveMoods (b : RawBundle) : List String × Bool :=
  let m0 := presentFirst b.classes b.moods
  let m1 :=
    match m0 with
    | none => b.clf_classes
    | some l => if l.isEmpty then b.clf_classes else some l
  match m1 with
  | none => (default_moods, true)
  | some l => if l.isEmpty then (default_moods, true) else (l, false)

/-- Keeps an optional list only when it is present and non-empty.  Used by
the two specification-side resolution orders below. -/
def nonEmptyOpt (o : Option (List String)) : Option (List String) :=
  match o with
  | some l => if l.isEmpty then none else some l
  | none => none

/-- Resolution order as the specification words it: the first non-empty
source among `classes`, `moods`, the classifier's class list, then the
default.  Stated for comparison with `resolveMoods`, which is the code's
actual order. -/
def specResolveMoods (b : RawBundle) : List String :=
  match nonEmptyOpt b.classes with
  | some l => l
  | none =>
    match nonEmptyOpt b.moods with
    | some l => l
    | none =>
      match nonEmptyOpt b.clf_classes with
      | some l => l
      | none => default_moods

/-- Resolution order the code actually implements, stated independently of
`resolveMoods`: a present `classes` key preempts `moods` even when its
value is empty; the survivor, when absent or empty, yields to the
classifier's class list, and that, when absent or empty, to the default
with the warning flag set. -/
def amendedResolveMoods (b : RawBundle) : List String × Bool :=
  match nonEmptyOpt (presentFirst b.classes b.moods) with
  | some l => (l, false)
  | none =>
    match nonEmptyOpt b.clf_classes with
    | some l => (l, false)
    | none => (default_moods, true)

/-- The four canonical mood labels `verify_model_moods` requires by
default (`jsdbk.py` line 57). -/
def requiredMoods : List String := ["happy", "calm", "energetic", "sad"]

/-- Message of the `ModelLoadError` raised by `verify_model_moods`
(the concrete missing-label listing in the Python f-string is elided). -/
def missingMsg : String := "Model moods missing required labels"

/-- `verify_model_moods` (`jsdbk.py` lines 54-66): checks that the required
labels form a subset of the loaded ones, raising `ModelLoadError`
otherwise and returning `True` on success.  Python's
`required.issubset(loaded)` on sets is membership of every required
element. -/
def verify_model_moods (loaded : List String) (required : Option (List String)) :
    Except PyExc Bool :=
  let req := match required with
             | some r => r
             | none => requiredMoods
  if req.all (fun r => decide (r ∈ loaded)) then .ok true
  else .error (.modelLoadError missingMsg)

/-- Import-time module body of `jsdbk.py` (lines 24-51): open and unpickle
the artifact, then resolve `MOODS`.  A missing or unreadable artifact is a
`none` input and surfaces as the builtin `FileNotFoundError` escaping the
`open` call; nothing else runs at load time — in particular
`verify_model_moods` is never invoked here. -/
def moduleInit : Option RawBundle → Except PyExc (List String × Bool)
  | none => .error .fileNotFound
  | some b => .ok (resolveMoods b)

/-- A bundle whose `"classes"` entry is present but empty while a non-empty
`"moods"` entry and a classifier class list are also present: the input on
which the code's resolution order and the spec's "first non-empty wins"
order disagree. -/
def emptyClassesBundle : RawBundle :=
  ⟨some [], some ["happy", "sad", "calm", "energetic"], some ["angry", "bored"]⟩

/-- C2 counterexample: on `emptyClassesBundle` the code resolves to the
classifier's class list, while the first non-empty source in the spec's
four-level order is the `"moods"` entry — so "first non-empty wins" fails
as stated. -/
theorem resolveMoods_not_first_nonEmpty :
    (resolveMoods emptyClassesBundle).1 = ["angry", "bored"] ∧
    specResolveMoods emptyClassesBundle = ["happy", "sad", "calm", "energetic"] ∧
    (resolveMoods emptyClassesBundle).1 ≠ specResolveMoods emptyClassesBundle := by
  refine ⟨rfl, rfl, ?_⟩
  decide

/-- C2 (amended): label resolution lets a present `classes` entry preempt
`moods` even when empty; the selected value falls through, when absent or
empty, to the classifier's class list and then to the hard-coded default
with a logged warning and never a hard failure; a present non-empty
`classes` entry always determines the resolved labels, whatever the
classifier's own class list says. -/
theorem resolveMoods_priority (b : RawBundle) :
    resolveMoods b = amendedResolveMoods b ∧
    (∀ c, b.classes = some c → c ≠ [] → resolveMoods b = (c, false)) := by
  obtain ⟨cs, ms, clf⟩ := b
  constructor
  · rcases cs with _ | (_ | ⟨c, ct⟩) <;>
      rcases ms with _ | (_ | ⟨m, mt⟩) <;>
      rcases clf with _ | (_ | ⟨k, kt⟩) <;>
      simp [resolveMoods, amendedResolveMoods, nonEmptyOpt, presentFirst]
  · intro c hc hne
    cases hc
    cases c with
    | nil => exact absurd rfl hne
    | cons x xs => simp [resolveMoods, presentFirst]

/-- C2 witness: applying the priority theorem at a concrete bundle whose
`classes` entry disagrees with the classifier's class list. -/
theorem resolveMoods_priority_witness :
    resolveMoods ⟨some ["happy", "sad", "calm", "energetic"], none, some ["angry"]⟩ =
      (["happy", "sad", "calm", "energetic"], false) :=
  (resolveMoods_priority ⟨some ["happy", "sad", "calm", "energetic"], none, some ["angry"]⟩).2
    ["happy", "sad", "calm", "energetic"] rfl (by decide)

/-- C4: with the artifact missing at import time, module load fails — so
the process does not start — but the escaping exception is the builtin
`FileNotFoundError` from `open(MODEL_PATH)`, not a `ModelLoadError`,
although `ModelLoadError`'s own docstring claims to cover a missing
model. -/
theorem moduleInit_missing_artifact :
    moduleInit none = .error PyExc.fileNotFound ∧
    PyExc.isModelLoadError .fileNotFound = false :=
  ⟨rfl, rfl⟩

/-- A bundle resolving to labels that are not a superset of the four
canonical moods. -/
def incompatibleBundle : RawBundle :=
  ⟨some ["angry", "happy", "sad"], none, none⟩

/-- C5 counterexample: loading `incompatibleBundle` succeeds even though
its resolved labels miss `calm` and `energetic`; the superset check lives
in `verify_model_moods`, which would reject these labels, but no call to
it happens at load time, so no `ModelLoadError` is raised. -/
theorem moduleInit_skips_validation :
    moduleInit (some incompatibleBundle) = .ok (["angry", "happy", "sad"], false) ∧
    verify_model_moods ["angry", "happy", "sad"] none =
      .error (.modelLoadError missingMsg) := by
  constructor
  · rfl
  · rfl

/-- C5 (amended): the repository defines `verify_model_moods`, which
succeeds exactly when the four canonical mood labels all occur in the
loaded list and raises `ModelLoadError` otherwise; but it is never invoked
during load, so module load succeeds on every readable bundle whatever its
labels. -/
theorem verify_model_moods_not_invoked (b : RawBundle) (ms : List String) :
    moduleInit (some b) = .ok (resolveMoods b) ∧
    (verify_model_moods ms none = .ok true ↔
      requiredMoods.all (fun r => decide (r ∈ ms)) = true) ∧
    (verify_model_moods ms none = .ok true ∨
      verify_model_moods ms none = .error (.modelLoadError missingMsg)) := by
  refine ⟨rfl, ?_, ?_⟩
  · unfold verify_model_moods
    by_cases h : requiredMoods.all (fun r => decide (r ∈ ms)) = true
    · simp [h]
    · simp [h]
  · unfold verify_model_moods
    by_cases h : requiredMoods.all (fun r => decide (r ∈ ms)) = true
    · simp [h]
    · simp [h]

/-- C5 amended-theorem witness: at a concrete bundle and label list the
validation function accepts a superset of the canonical moods and load
returns the resolved labels. -/
theorem verify_model_moods_not_invoked_witness :
    moduleInit (some ⟨none, none, some ["calm", "energetic", "happy", "sad"]⟩) =
      .ok (["calm", "energetic", "happy", "sad"], false) ∧
    verify_model_moods ["calm", "energetic", "happy", "sad"] none = .ok true := by
  have h := verify_model_moods_not_invoked
    ⟨none, none, some ["calm", "energetic", "happy", "sad"]⟩
    ["calm", "energetic", "happy", "sad"]
  exact ⟨h.1, h.2.1.mpr (by decide)⟩

/-- Filesystem events of the decoder's temporary intermediate file:
`tempfile.mkstemp` creates it, the `finally` block removes it. -/
inductive FsEvent where
  | created : FsEvent
  | removed : FsEvent
deriving DecidableEq, Repr

/-- Host environment of `load_audio`: the primary `librosa.load` on the
source path, `shutil.which("ffmpeg")` availability, the
`subprocess.check_call(["ffmpeg", ...])` conversion, and the retry
`librosa.load` against the converted temporary file (keyed by the source
path, since the temporary is its deterministic transcode).  Each fallible
call returns `Except` with the Python exception text. -/
structure AudioEnv where
  direct_load : String → Except String (List ℚ)
  ffmpeg_available : Bool
  ffmpeg_convert : String → Except String Unit
  load_converted : String → Except String (List ℚ)

/-- `load_audio` (`jsdbk.py` lines 69-100): try the primary decode at
22,050 Hz mono; on failure, if ffmpeg is available, create a temporary
`.wav` (recorded as `FsEvent.created`), run the conversion and retry the
decode against the temporary, raising `AudioDecodeError` (message prefix
plus cause) when either step fails, and always remove the temporary in the
`finally` block (recorded as `FsEvent.removed` — `mkstemp` guarantees the
file exists, so the `os.path.exists` guard passes); without ffmpeg, raise
`AudioDecodeError` carrying the primary cause, with no temporary file
involved. -/
def load_audio (env : AudioEnv) (path : String) :
    Except PyExc (List ℚ × Nat) × List FsEvent :=
  match env.direct_load path with
  | .ok y => (.ok (y, 22050), [])
  | .error e =>
    if env.ffmpeg_available then
      match env.ffmpeg_convert path with
      | .ok _ =>
        match env.load_converted path with
        | .ok y => (.ok (y, 22050), [FsEvent.created, FsEvent.removed])
        | .error e2 =>
          (.error (.audioDecodeError
              ("Audio decode failed after ffmpeg conversion: " ++ e2) e2),
            [FsEvent.created, FsEvent.removed])
      | .error e2 =>
        (.error (.audioDecodeError
            ("Audio decode failed after ffmpeg conversion: " ++ e2) e2),
          [FsEvent.created, FsEvent.removed])
    else
      (.error (.audioDecodeError
          "Audio decode failed: no suitable backend found (install ffmpeg)" e), [])

/-- Whether a pipeline outcome is a raised `AudioDecodeError`. -/
def resultIsAudioDecodeError {α : Type} (r : Except PyExc α) : Bool :=
  match r with
  | .error e => e.isAudioDecodeError
  | .ok _ => false

/-- The raising condition exactly as the claim words it: the primary
decode fails and either ffmpeg is unavailable or the retry decode against
the transcoded intermediate fails. -/
def claimedDecodeFailure (env : AudioEnv) (path : String) : Prop :=
  (∃ e, env.direct_load path = .error e) ∧
    (env.ffmpeg_available = false ∨ ∃ e, env.load_converted path = .error e)

/-- An environment where the primary decode fails, ffmpeg is available,
the ffmpeg conversion itself fails, and the retry decode would succeed. -/
def convFailEnv : AudioEnv :=
  ⟨fun _ => .error "direct decode boom", true,
   fun _ => .error "conversion boom", fun _ => .ok [0]⟩

/-- C6 counterexample: on `convFailEnv` the code raises `AudioDecodeError`
(the `except` block around the fallback also catches a failure of the
ffmpeg conversion itself), yet the claim's condition is false there — 
ffmpeg is available and the retry decode against the intermediate would
succeed, it is just never attempted. -/
theorem load_audio_error_beyond_claim :
    ((load_audio convFailEnv "song.mp3").1 =
      .error (.audioDecodeError
        "Audio decode failed after ffmpeg conversion: conversion boom"
        "conversion boom")) ∧
    ¬ claimedDecodeFailure convFailEnv "song.mp3" := by
  constructor
  · rfl
  · intro h
    rcases h with ⟨_, h2⟩
    rcases h2 with h2 | ⟨e, he⟩
    · simp [convFailEnv] at h2
    · simp [convFailEnv] at he

/-- C6 (amended): `load_audio` raises `AudioDecodeError` exactly when the
primary decode fails and either ffmpeg is unavailable, or the ffmpeg
conversion of the source fails, or the retry decode against the converted
temporary mono 22,050 Hz file fails; the error carries the primary cause
in the no-ffmpeg case and the fallback step's cause otherwise, and when
the primary decode fails with ffmpeg available and conversion succeeding,
the result is exactly the retry decode's output at 22,050 Hz. -/
theorem load_audio_error_characterization (env : AudioEnv) (path : String) :
    (resultIsAudioDecodeError ((load_audio env path).1) = true ↔
      ((∃ e, env.direct_load path = .error e) ∧
        (env.ffmpeg_available = false ∨
          (∃ e, env.ffmpeg_convert path = .error e) ∨
          (∃ e, env.load_converted path = .error e)))) ∧
    (∀ e, env.direct_load path = .error e → env.ffmpeg_available = false →
      (load_audio env path).1 =
        .error (.audioDecodeError
          "Audio decode failed: no suitable backend found (install ffmpeg)" e)) ∧
    (∀ e y, env.direct_load path = .error e → env.ffmpeg_available = true →
      env.ffmpeg_convert path = .ok () → env.load_converted path = .ok y →
      (load_audio env path).1 = .ok (y, 22050)) := by
  refine ⟨?_, ?_, ?_⟩
  · unfold load_audio
    cases hd : env.direct_load path with
    | ok y => simp [resultIsAudioDecodeError]
    | error e =>
      cases hf : env.ffmpeg_available with
      | false => simp [hf, resultIsAudioDecodeError, PyExc.isAudioDecodeError, hd]
      | true =>
        cases hc : env.ffmpeg_convert path with
        | ok u =>
          cases hl : env.load_converted path with
          | ok y =>
            simp [hf, hc, hl, resultIsAudioDecodeError, hd]
          | error e2 =>
            simp [hf, hc, hl, resultIsAudioDecodeError, PyExc.isAudioDecodeError, hd]
        | error e2 =>
          simp [hf, hc, resultIsAudioDecodeError, PyExc.isAudioDecodeError, hd]
  · intro e hd hf
    simp [load_audio, hd, hf]
  · intro e y hd hf hc hl
    simp [load_audio, hd, hf, hc, hl]

/-- C6 witness: the characterization applied to a concrete environment
whose retry decode fails, observing the raised error. -/
theorem load_audio_error_characterization_witness :
    resultIsAudioDecodeError
      ((load_audio ⟨fun _ => .error "d", true, fun _ => .ok (), fun _ => .error "r"⟩
        "a.mp3").1) = true :=
  (load_audio_error_characterization
      ⟨fun _ => .error "d", true, fun _ => .ok (), fun _ => .error "r"⟩ "a.mp3").1.mpr
    ⟨⟨"d", rfl⟩, Or.inr (Or.inr ⟨"r", rfl⟩)⟩

/-- C7: whenever `load_audio` creates the temporary intermediate file, its
event trace is exactly creation followed by removal — the `finally` block
removes the file before the function returns or raises, on the success
path and on every failure path. -/
theorem load_audio_temp_always_removed (env : AudioEnv) (path : String) :
    FsEvent.created ∈ (load_audio env path).2 →
      (load_audio env path).2 = [FsEvent.created, FsEvent.removed] := by
  unfold load_audio
  cases hd : env.direct_load path with
  | ok y => intro h; simp at h
  | error e =>
    cases hf : env.ffmpeg_available with
    | false => intro h; simp [hf] at h
    | true =>
      cases hc : env.ffmpeg_convert path with
      | ok u =>
        cases hl : env.load_converted path with
        | ok y => intro _; simp [hf, hc, hl]
        | error e2 => intro _; simp [hf, hc, hl]
      | error e2 => intro _; simp [hf, hc]

/-- C7 witness: a concrete environment that takes the fallback path and
creates the temporary file; the theorem yields the created-then-removed
trace. -/
theorem load_audio_temp_always_removed_witness :
    (load_audio ⟨fun _ => .error "d", true, fun _ => .ok (), fun _ => .ok [1]⟩
        "b.wav").2 = [FsEvent.created, FsEvent.removed] :=
  load_audio_temp_always_removed
    ⟨fun _ => .error "d", true, fun _ => .ok (), fun _ => .ok [1]⟩ "b.wav"
    (by decide)

/-- The librosa/numpy calls the two feature extractors and the prediction
assembler make, for a fixed decoded signal type.  Each field carries
exactly the arguments the Python code passes; where the code relies on a
library default (`frame_length=2048`, `hop_length=512`, `n_fft=2048`,
`roll_percent=0.85`), the default value is passed explicitly.  Framed
outputs of nominal shape `(1, n)` are the single row; `mfcc`,
`chroma_stft` and `spectral_contrast` are row lists; `np.mean` / `np.std`
over a 2-D array act on the flattened rows.  `frame_to_time` is the
elementwise action of `librosa.frames_to_time`.  The numeric content of
every field belongs to the library, so the fields are opaque. -/
structure AudioBackend where
  beat_track : List ℚ → Nat → ℚ × List Nat
  rms : List ℚ → Nat → Nat → List ℚ
  spectral_centroid : List ℚ → Nat → List ℚ
  zero_crossing_rate : List ℚ → Nat → Nat → List ℚ
  spectral_rolloff : List ℚ → Nat → ℚ → List ℚ
  mfcc : List ℚ → Nat → Nat → Nat → Nat → List (List ℚ)
  chroma_stft : List ℚ → Nat → Nat → Nat → List (List ℚ)
  onset_strength : List ℚ → Nat → List ℚ
  onset_detect : List ℚ → Nat → List Nat
  spectral_contrast : List ℚ → Nat → Nat → Nat → List (List ℚ)
  spectral_bandwidth : List ℚ → Nat → List ℚ
  frame_to_time : Nat → Nat → ℚ
  np_mean : List ℚ → ℚ
  np_std : List ℚ → ℚ

/-- `extract_features_from_audio` (`jsdbk.py` lines 103-162): the 15
features in training order.  MFCC is computed with `n_mfcc=13` and rows 1
and 2 feed slots 6 and 7 (1-indexed), skipping row 0; slots 11 and 15 both
hold `np.std(onset_env)`.  The trailing `reshape(1, -1)` only changes the
nominal array shape, not the 15 values or their order. -/
def extract_features_from_audio (B : AudioBackend) (y : List ℚ) (sr : Nat) :
    List ℚ :=
  let tempo := (B.beat_track y sr).1
  let rms := B.rms y 2048 512
  let spectral_centroid := B.spectral_centroid y sr
  let zcr := B.zero_crossing_rate y 2048 512
  let spectral_rolloff := B.spectral_rolloff y sr (85 / 100)
  let mfccs := B.mfcc y sr 13 2048 512
  let chroma := B.chroma_stft y sr 2048 512
  let onset_env := B.onset_strength y sr
  let spectral_contrast := B.spectral_contrast y sr 2048 512
  [tempo,
   B.np_mean rms,
   B.np_mean spectral_centroid,
   B.np_mean zcr,
   B.np_mean spectral_rolloff,
   B.np_mean (mfccs.getD 1 []),
   B.np_mean (mfccs.getD 2 []),
   B.np_mean chroma.flatten,
   B.np_mean onset_env,
   B.np_mean spectral_contrast.flatten,
   B.np_std onset_env,
   B.np_std rms,
   B.np_std spectral_rolloff,
   B.np_std chroma.flatten,
   B.np_std onset_env]

/-- `extract_anti_overfitting_features`
(`smart_playlist_enhanced_audio.py` lines 37-100), taken after its own
`librosa.load` so that both extractors can be compared on the same decoded
signal.  Library defaults it relies on are passed explicitly and coincide
with the other extractor's explicit arguments.  MFCC rows 0 and 1 feed
slots 6 and 7; slot 9 is the onset count from `onset_detect`; slots 11 and
15 are `np.std(beats)` when at least two beats exist, else `0.0`. -/
def extract_anti_overfitting_features (B : AudioBackend) (y : List ℚ) (sr : Nat) :
    List ℚ :=
  let tb := B.beat_track y sr
  let tempo := tb.1
  let beats := tb.2
  let rms := B.rms y 2048 512
  let spectral_centroids := B.spectral_centroid y sr
  let zcr := B.zero_crossing_rate y 2048 512
  let spectral_rolloff := B.spectral_rolloff y sr (85 / 100)
  let mfccs := B.mfcc y sr 13 2048 512
  let chroma := B.chroma_stft y sr 2048 512
  let onset_frames := B.onset_detect y sr
  let spectral_contrast := B.spectral_contrast y sr 2048 512
  [tempo,
   B.np_mean rms,
   B.np_mean spectral_centroids,
   B.np_mean zcr,
   B.np_mean spectral_rolloff,
   B.np_mean (mfccs.getD 0 []),
   B.np_mean (mfccs.getD 1 []),
   B.np_mean chroma.flatten,
   (if 0 < onset_frames.length then (onset_frames.length : ℚ) else 0),
   B.np_mean spectral_contrast.flatten,
   (if 1 < beats.length then B.np_std (beats.map (fun b => (b : ℚ))) else 0),
   B.np_std rms,
   B.np_std spectral_rolloff,
   B.np_std chroma.flatten,
   (if 1 < beats.length then B.np_std (beats.map (fun b => (b : ℚ))) else 0)]

/-- `np.diff`: successive differences. -/
def npDiff : List ℚ → List ℚ
  | [] => []
  | [_] => []
  | a :: b :: t => (b - a) :: npDiff (b :: t)

/-- `np.diff` shortens a list by one. -/
theorem npDiff_length : (xs : List ℚ) → (npDiff xs).length = xs.length - 1
  | [] => rfl
  | [_] => rfl
  | _ :: b :: t => by
    have ih := npDiff_length (b :: t)
    simp [npDiff] at ih ⊢
    omega

/-- The fitted scaler of the bundle: an opaque elementwise transform. -/
structure Scaler where
  transform : List ℚ → List ℚ

/-- The trained classifier of the bundle: optional `classes_` attribute,
`predict` (first element of the returned array) and `predict_proba`
(first row of the returned matrix). -/
structure Classifier where
  classes : Option (List String)
  predict : List ℚ → String
  predict_proba : List ℚ → List ℚ

/-- Label-alignment step of `predict_mood` (`jsdbk.py` lines 221-230):
start from the module's `MOODS`; when the probability vector length
disagrees, rebuild from the classifier's `classes_` when that attribute
is present. -/
def resolveLabels (MOODS : List String) (clf : Classifier) (probs : List ℚ) :
    List String :=
  if probs.length ≠ MOODS.length then
    match clf.classes with
    | some raw => raw
    | none => MOODS
  else MOODS

/-- The dictionary `predict_mood` returns (`jsdbk.py` lines 232-246);
`probabilities` is the `dict(zip(labels, probs))` association list. -/
structure PredictionResult where
  mood : String
  probabilities : List (String × ℚ)
  tempo : ℚ
  tempo_variance : ℚ
  energy : ℚ
  energy_variance : ℚ
  spectral_centroid : ℚ
  spectral_bandwidth : ℚ
  zero_crossing_rate : ℚ
  valence : ℚ
  duration : ℚ

/-- `predict_mood` (`jsdbk.py` lines 169-249) after a successful decode:
extract the 15 features, scale them, classify, recompute the auxiliary
display statistics from the signal, align labels with the probability
vector, and assemble the result.  `tempo` is scalar here, so the
`np.isscalar` branch keeps it unchanged; `tempo_variance` is
`np.std(np.diff(librosa.frames_to_time(beats))) * 60` when more than one
beat was tracked (the inner `len(beat_intervals) > 0` guard re-checked as
in the source), else `0.0`; `valence` is the mean spectral centroid over
the Nyquist frequency `sr / 2`. -/
def predict_mood (B : AudioBackend) (sc : Scaler) (clf : Classifier)
    (MOODS : List String) (y : List ℚ) (sr : Nat) : PredictionResult :=
  let song_duration : ℚ := (y.length : ℚ) / (sr : ℚ)
  let features_array := extract_features_from_audio B y sr
  let features_scaled := sc.transform features_array
  let mood := clf.predict features_scaled
  let probs := clf.predict_proba features_scaled
  let tb := B.beat_track y sr
  let tempo_value := tb.1
  let beats := tb.2
  let tempo_variance : ℚ :=
    if 1 < beats.length then
      let beat_times := beats.map (fun fr => B.frame_to_time fr sr)
      let beat_intervals := npDiff beat_times
      if 0 < beat_intervals.length then B.np_std beat_intervals * 60 else 0
    else 0
  let rms := B.rms y 2048 512
  let energy := B.np_mean rms
  let energy_variance := B.np_std rms
  let centroid := B.spectral_centroid y sr
  let bandwidth := B.spectral_bandwidth y sr
  let zcr := B.zero_crossing_rate y 2048 512
  let labels := resolveLabels MOODS clf probs
  ⟨mood, labels.zip probs, tempo_value, tempo_variance, energy,
   energy_variance, B.np_mean centroid, B.np_mean bandwidth, B.np_mean zcr,
   B.np_mean centroid / ((sr : ℚ) / 2), song_duration⟩

/-- C1: for every decoded signal and backend, the extracted feature vector
has length exactly 15 and its slots are, in order: tempo, RMS mean,
spectral-centroid mean, zero-crossing-rate mean, spectral-rolloff mean,
the means of rows 1 and 2 of the 13-coefficient MFCC (row 0 skipped),
chroma mean, onset-strength mean, spectral-contrast mean, the
onset-strength standard deviation standing in for "tempo std", RMS std,
spectral-rolloff std, chroma std, and onset-strength std. -/
theorem extract_features_shape (B : AudioBackend) (y : List ℚ) (sr : Nat) :
    (extract_features_from_audio B y sr).length = 15 ∧
    (extract_features_from_audio B y sr).getD 0 0 = (B.beat_track y sr).1 ∧
    (extract_features_from_audio B y sr).getD 1 0 = B.np_mean (B.rms y 2048 512) ∧
    (extract_features_from_audio B y sr).getD 2 0 = B.np_mean (B.spectral_centroid y sr) ∧
    (extract_features_from_audio B y sr).getD 3 0 = B.np_mean (B.zero_crossing_rate y 2048 512) ∧
    (extract_features_from_audio B y sr).getD 4 0 = B.np_mean (B.spectral_rolloff y sr (85 / 100)) ∧
    (extract_features_from_audio B y sr).getD 5 0 = B.np_mean ((B.mfcc y sr 13 2048 512).getD 1 []) ∧
    (extract_features_from_audio B y sr).getD 6 0 = B.np_mean ((B.mfcc y sr 13 2048 512).getD 2 []) ∧
    (extract_features_from_audio B y sr).getD 7 0 = B.np_mean (B.chroma_stft y sr 2048 512).flatten ∧
    (extract_features_from_audio B y sr).getD 8 0 = B.np_mean (B.onset_strength y sr) ∧
    (extract_features_from_audio B y sr).getD 9 0 = B.np_mean (B.spectral_contrast y sr 2048 512).flatten ∧
    (extract_features_from_audio B y sr).getD 10 0 = B.np_std (B.onset_strength y sr) ∧
    (extract_features_from_audio B y sr).getD 11 0 = B.np_std (B.rms y 2048 512) ∧
    (extract_features_from_audio B y sr).getD 12 0 = B.np_std (B.spectral_rolloff y sr (85 / 100)) ∧
    (extract_features_from_audio B y sr).getD 13 0 = B.np_std (B.chroma_stft y sr 2048 512).flatten ∧
    (extract_features_from_audio B y sr).getD 14 0 = B.np_std (B.onset_strength y sr) :=
  ⟨rfl, rfl, rfl, rfl, rfl, rfl, rfl, rfl, rfl, rfl, rfl, rfl, rfl, rfl, rfl, rfl⟩

/-- Arithmetic mean, instantiating the opaque `np.mean` in concrete test
environments. -/
def testMean (l : List ℚ) : ℚ := l.sum / l.length

/-- Population spread (variance form), instantiating the opaque `np.std`
in concrete test environments. -/
def testSpread (l : List ℚ) : ℚ :=
  (l.map (fun x => (x - testMean l) * (x - testMean l))).sum / l.length

/-- A concrete backend on which the two extractors' structural differences
become value differences: distinct MFCC rows, a non-constant onset
envelope, no detected onsets, and an empty beat list. -/
def backendA : AudioBackend :=
  ⟨fun _ _ => (120, []), fun _ _ _ => [0], fun _ _ => [0], fun _ _ _ => [0],
   fun _ _ _ => [0], fun _ _ _ _ _ => [[0], [10], [20]], fun _ _ _ _ => [[0]],
   fun _ _ => [1, 3], fun _ _ => [], fun _ _ _ _ => [[0]], fun _ _ => [0],
   fun fr _ => (fr : ℚ), testMean, testSpread⟩

/-- C9: on a common signal and backend the two extractors disagree in the
same nominal slots — slot 6 and 7 (MFCC rows 1,2 versus 0,1), slot 9
(onset-strength mean versus onset count), and slots 11 and 15
(onset-strength std versus beat-frame std) — so the two coexisting
feature-extraction implementations are not extensionally equal. -/
theorem extractors_not_extensionally_equal :
    ((extract_features_from_audio backendA [1, 2] 22050).getD 5 0 ≠
      (extract_anti_overfitting_features backendA [1, 2] 22050).getD 5 0) ∧
    ((extract_features_from_audio backendA [1, 2] 22050).getD 6 0 ≠
      (extract_anti_overfitting_features backendA [1, 2] 22050).getD 6 0) ∧
    ((extract_features_from_audio backendA [1, 2] 22050).getD 8 0 ≠
      (extract_anti_overfitting_features backendA [1, 2] 22050).getD 8 0) ∧
    ((extract_features_from_audio backendA [1, 2] 22050).getD 10 0 ≠
      (extract_anti_overfitting_features backendA [1, 2] 22050).getD 10 0) ∧
    ((extract_features_from_audio backendA [1, 2] 22050).getD 14 0 ≠
      (extract_anti_overfitting_features backendA [1, 2] 22050).getD 14 0) ∧
    extract_features_from_audio backendA [1, 2] 22050 ≠
      extract_anti_overfitting_features backendA [1, 2] 22050 := by
  refine ⟨?_, ?_, ?_, ?_, ?_, ?_⟩ <;>
    simp [extract_features_from_audio, extract_anti_overfitting_features,
      backendA, testMean, testSpread] <;>
    norm_num

/-- C10: the auxiliary `tempo_variance` statistic in the assembled result
is `0.0` whenever beat tracking reports fewer than two beats, and is
otherwise the standard deviation of the inter-beat-interval times in
seconds (differences of the beat frames converted by `frames_to_time`)
multiplied by 60. -/
theorem predict_mood_tempo_variance (B : AudioBackend) (sc : Scaler)
    (clf : Classifier) (MOODS : List String) (y : List ℚ) (sr : Nat) :
    ((B.beat_track y sr).2.length < 2 →
      (predict_mood B sc clf MOODS y sr).tempo_variance = 0) ∧
    (2 ≤ (B.beat_track y sr).2.length →
      (predict_mood B sc clf MOODS y sr).tempo_variance =
        B.np_std (npDiff ((B.beat_track y sr).2.map
          (fun fr => B.frame_to_time fr sr))) * 60) := by
  constructor
  · intro h
    have h1 : ¬ (1 < (B.beat_track y sr).2.length) := by omega
    simp [predict_mood, h1]
  · intro h
    have h1 : 1 < (B.beat_track y sr).2.length := by omega
    have h2 : 0 < (npDiff ((B.beat_track y sr).2.map
        (fun fr => B.frame_to_time fr sr))).length := by
      rw [npDiff_length]
      simp
      omega
    simp [predict_mood, h1, h2]

/-- A concrete backend with three tracked beats at frames 0, 1 and 3,
frame-to-time conversion taken as the identity, used to exercise the
beat-interval branch. -/
def backendB : AudioBackend :=
  ⟨fun _ _ => (120, [0, 1, 3]), fun _ _ _ => [0], fun _ _ => [0],
   fun _ _ _ => [0], fun _ _ _ => [0], fun _ _ _ _ _ => [[0], [10], [20]],
   fun _ _ _ _ => [[0]], fun _ _ => [1, 3], fun _ _ => [],
   fun _ _ _ _ => [[0]], fun _ _ => [0], fun fr _ => (fr : ℚ),
   testMean, testSpread⟩

/-- An identity scaler for concrete instantiations. -/
def idScaler : Scaler := ⟨fun v => v⟩

/-- A concrete four-class classifier whose probability output is the
uniform distribution over its own four classes. -/
def uniformClassifier : Classifier :=
  ⟨some ["calm", "energetic", "happy", "sad"], fun _ => "calm",
   fun _ => [1 / 4, 1 / 4, 1 / 4, 1 / 4]⟩

/-- C10 witness: on `backendB` with beats at frames 0, 1, 3, the theorem's
second branch applies; the inter-beat intervals are `[1, 2]` and the
resulting `tempo_variance` is their spread times 60, evaluated to 15. -/
theorem predict_mood_tempo_variance_witness :
    (predict_mood backendB idScaler uniformClassifier default_moods [1, 2] 22050).tempo_variance =
      backendB.np_std (npDiff (([0, 1, 3] : List Nat).map
        (fun fr => backendB.frame_to_time fr 22050))) * 60 ∧
    backendB.np_std (npDiff (([0, 1, 3] : List Nat).map
        (fun fr => backendB.frame_to_time fr 22050))) * 60 = 15 := by
  constructor
  · exact (predict_mood_tempo_variance backendB idScaler uniformClassifier
      default_moods [1, 2] 22050).2 (by decide)
  · simp [backendB, npDiff, testSpread, testMean]
    norm_num

/-- C3: whenever the classifier exposes a class list whose length equals
its probability-vector length (the invariant every fitted scikit-learn
classifier maintains) and its probability vector sums to 1 within 1e-3,
the probability map assembled by `predict_mood` has key list equal to the
resolved label list (so equal key sets), the resolved label count equals
the probability-vector length (the labels having been rebuilt from the
classifier's class list on mismatch), and the map's values sum to 1 within
1e-3. -/
theorem predict_mood_probabilities_aligned (B : AudioBackend) (sc : Scaler)
    (clf : Classifier) (MOODS : List String) (y : List ℚ) (sr : Nat)
    (cs : List String) (hcs : clf.classes = some cs)
    (hlen : cs.length =
      (clf.predict_proba (sc.transform (extract_features_from_audio B y sr))).length)
    (hsum : |(clf.predict_proba (sc.transform (extract_features_from_audio B y sr))).sum - 1|
      ≤ 1 / 1000) :
    ((predict_mood B sc clf MOODS y sr).probabilities.map Prod.fst).toFinset =
      (resolveLabels MOODS clf
        (clf.predict_proba (sc.transform (extract_features_from_audio B y sr)))).toFinset ∧
    (resolveLabels MOODS clf
        (clf.predict_proba (sc.transform (extract_features_from_audio B y sr)))).length =
      (clf.predict_proba (sc.transform (extract_features_from_audio B y sr))).length ∧
    |((predict_mood B sc clf MOODS y sr).probabilities.map Prod.snd).sum - 1| ≤ 1 / 1000 := by
  have hL : (resolveLabels MOODS clf
      (clf.predict_proba (sc.transform (extract_features_from_audio B y sr)))).length =
      (clf.predict_proba (sc.transform (extract_features_from_audio B y sr))).length := by
    unfold resolveLabels
    by_cases h : (clf.predict_proba (sc.transform (extract_features_from_audio B y sr))).length =
        MOODS.length
    · simp [h]
    · simp [h, hcs]
      exact hlen
  have hr : (predict_mood B sc clf MOODS y sr).probabilities =
      (resolveLabels MOODS clf
        (clf.predict_proba (sc.transform (extract_features_from_audio B y sr)))).zip
        (clf.predict_proba (sc.transform (extract_features_from_audio B y sr))) := rfl
  refine ⟨?_, hL, ?_⟩
  · rw [hr, List.map_fst_zip _ _ (le_of_eq hL)]
  · rw [hr, List.map_snd_zip _ _ (le_of_eq hL.symm)]
    exact hsum

/-- C3 witness: the alignment theorem applied to `backendB`, the identity
scaler, and the uniform four-class classifier with the default label
list. -/
theorem predict_mood_probabilities_aligned_witness :
    ((predict_mood backendB idScaler uniformClassifier default_moods [1, 2] 22050).probabilities.map
        Prod.fst).toFinset =
      (resolveLabels default_moods uniformClassifier
        (uniformClassifier.predict_proba (idScaler.transform
          (extract_features_from_audio backendB [1, 2] 22050)))).toFinset ∧
    (resolveLabels default_moods uniformClassifier
        (uniformClassifier.predict_proba (idScaler.transform
          (extract_features_from_audio backendB [1, 2] 22050)))).length =
      (uniformClassifier.predict_proba (idScaler.transform
        (extract_features_from_audio backendB [1, 2] 22050))).length ∧
    |((predict_mood backendB idScaler uniformClassifier default_moods [1, 2] 22050).probabilities.map
        Prod.snd).sum - 1| ≤ 1 / 1000 :=
  predict_mood_probabilities_aligned backendB idScaler uniformClassifier
    default_moods [1, 2] 22050 ["calm", "energetic", "happy", "sad"] rfl rfl
    (by norm_num [uniformClassifier])


/-- Python `str.startswith`: the pattern (first argument) letter-by-letter
heads the subject (second argument). -/
def leadMatch : List Char → List Char → Bool
  | [], _ => true
  | _ :: _, [] => false
  | p :: ps, c :: cs => (p = c) && leadMatch ps cs

/-- Python `str.endswith`: the pattern ends the subject. -/
def tailMatch (pat s : List Char) : Bool := leadMatch pat.reverse s.reverse

/-- `str.startswith` lifted to `String`. -/
def pyStartsWith (s pat : String) : Bool := leadMatch pat.data s.data

/-- `str.endswith` lifted to `String`. -/
def pyEndsWith (s pat : String) : Bool := tailMatch pat.data s.data

/-- `str.lower`, characterwise (the ASCII case the handler exercises). -/
def pyLower (s : String) : String := ⟨s.data.map Char.toLower⟩

/-- The extension tuple of the upload check (`app.py` lines 23-25). -/
def audio_extensions : List String := [".wav", ".mp3", ".ogg", ".flac", ".m4a"]

/-- Upload validation of the `/predict` handler (`app.py` lines 20-28):
the declared content type (absent modelled as `none`, which falsifies the
Python truthiness guard) starts with `audio/`, or equals
`application/octet-stream`, or the lowercased filename ends in one of the
five extensions — Python's `str.endswith` on a tuple being a
disjunction. -/
def acceptUpload (contentType : Option String) (filename : String) : Bool :=
  let is_audio_mime :=
    match contentType with
    | some ct => pyStartsWith ct "audio/"
    | none => false
  let is_octet := contentType = some "application/octet-stream"
  let has_audio_ext := audio_extensions.any (fun e => pyEndsWith (pyLower filename) e)
  is_audio_mime || is_octet || has_audio_ext

/-- The acceptance condition as the claim words it: declared content type
starts with `audio/`, or is exactly the generic octet-stream type, or the
filename's (case-folded) extension is one of
`.wav .mp3 .ogg .flac .m4a`. -/
def specAccepts (contentType : Option String) (filename : String) : Prop :=
  (∃ ct, contentType = some ct ∧ pyStartsWith ct "audio/" = true) ∨
  contentType = some "application/octet-stream" ∨
  (∃ e ∈ audio_extensions, pyEndsWith (pyLower filename) e = true)

/-- The `/predict` handler (`app.py` lines 15-48): validate the upload
first, and only then stage the payload and run the prediction pipeline
(passed here as an opaque computation); an `AudioDecodeError` becomes a
415 response with the error message, any other internal failure a 500. -/
def predict_endpoint (pipeline : Unit → Except PyExc PredictionResult)
    (contentType : Option String) (filename : String) :
    Except (Nat × String) PredictionResult :=
  if acceptUpload contentType filename then
    match pipeline () with
    | .ok r => .ok r
    | .error (.audioDecodeError msg _) => .error (415, msg)
    | .error (.httpException code detail) => .error (code, detail)
    | .error (.modelLoadError msg) => .error (500, msg)
    | .error .fileNotFound => .error (500, "file not found")
    | .error (.other msg) => .error (500, msg)
  else .error (400, "Unsupported audio format")

/-- C8: the `/predict` endpoint accepts an upload exactly under the
claimed condition on content type and filename extension, and every other
upload is answered with status 400 and detail `Unsupported audio format`
uniformly in the pipeline — the rejection happens before any processing. -/
theorem predict_endpoint_validation (contentType : Option String) (filename : String) :
    (acceptUpload contentType filename = true ↔ specAccepts contentType filename) ∧
    (acceptUpload contentType filename = false →
      ∀ pipeline, predict_endpoint pipeline contentType filename =
        .error (400, "Unsupported audio format")) := by
  constructor
  · cases contentType with
    | none =>
      simp only [acceptUpload, specAccepts, Bool.or_eq_true, List.any_eq_true,
        Bool.false_or, decide_eq_true_eq]
      constructor
      · intro h
        rcases h with h | h
        · cases h
        · exact Or.inr (Or.inr h)
      · intro h
        rcases h with ⟨ct, hct, _⟩ | h | h
        · cases hct
        · cases h
        · exact Or.inr h
    | some ct =>
      simp only [acceptUpload, specAccepts, Bool.or_eq_true, List.any_eq_true,
        decide_eq_true_eq]
      constructor
      · intro h
        rcases h with (h | h) | h
        · exact Or.inl ⟨ct, rfl, h⟩
        · exact Or.inr (Or.inl h)
        · exact Or.inr (Or.inr h)
      · intro h
        rcases h with ⟨c, hc, hs⟩ | h | h
        · cases hc
          exact Or.inl (Or.inl hs)
        · exact Or.inl (Or.inr h)
        · exact Or.inr h
  · intro h pipeline
    unfold predict_endpoint
    rw [h]
    simp

/-- C8 witness: a file named `notes.txt` with declared content type
`text/plain` is rejected with 400 `Unsupported audio format`, whatever
pipeline sits behind the endpoint. -/
theorem predict_endpoint_validation_witness :
    predict_endpoint (fun _ => .error (.other "never runs")) (some "text/plain")
      "notes.txt" = .error (400, "Unsupported audio format") :=
  (predict_endpoint_validation (some "text/plain") "notes.txt").2 (by decide)
    (fun _ => .error (.other "never runs"))
